import Mathlib

/-!
Verification development for `scheduler.py` of daily_stock_analysis: a daily
task scheduler built from a `GracefulShutdown` signal-flag holder and a
`Scheduler` that registers one job per `set_daily_task` call on the `schedule`
library and polls it in a 30-second loop.

Shallow embedding conventions:
* wall-clock time is a `Nat` counting seconds since an arbitrary epoch;
  a calendar day is `86400` seconds and a time-of-day is a second-of-day;
* logging is modelled as a list of `LogEntry` (severity plus a tag identifying
  the log site); exact log text is not contractual;
* the opaque task callable is a `Task`: an identifier plus a behaviour map
  from invocation index to outcome (normal return or raised failure);
* Python exceptions that escape a function are modelled with `Except`;
  a function whose Lean type is not `Except` provably cannot raise;
* the `schedule` third-party library is not part of this repository's source,
  so its daily-job trigger computation is modelled from the spec (see
  `scheduleFirstRun`, `scheduleNextRunAfter`, `parseTime`);
* the single loop thread is modelled sequentially; the actions of concurrent
  contexts (a `stop()` call or an OS signal delivered during the 30 s sleep)
  are supplied per iteration by a `RunEvent` environment.
-/

namespace DailySched

/-- Log severity of a record emitted through the `logging` module. -/
inductive LogLevel
  | info
  | error
deriving DecidableEq, Repr

/-- Identifies which logging statement of `scheduler.py` produced a record. -/
inductive LogTag
  | tzCheck
  | shutdownSignal (signum : Nat)
  | taskSet
  | immediateRun
  | bannerLine
  | taskStart (t : Nat)
  | taskDone (t : Nat)
  | taskFailed (msg : String)
  | loopStart
  | nextRunInfo (v : Option Nat)
  | heartbeat (v : Option Nat)
  | loopStop
deriving DecidableEq, Repr

/-- One emitted log record: severity plus site tag. -/
structure LogEntry where
  level : LogLevel
  tag : LogTag
deriving DecidableEq, Repr

/-- `GracefulShutdown`: holds the `shutdown_requested` flag
(`scheduler.py` lines 19-37).  The `threading.Lock` serialises the signal
handler against the polling loop; in this sequential model the actions are
already serialised, so the lock is not represented. -/
structure GracefulShutdown where
  shutdown_requested : Bool
deriving DecidableEq, Repr

/-- `GracefulShutdown.__init__`: the flag starts out false. -/
def GracefulShutdown.init : GracefulShutdown :=
  { shutdown_requested := false }

/-- `GracefulShutdown._signal_handler` (lines 28-32): under the lock, if no
shutdown was requested yet, log the signal and set the flag; otherwise do
nothing.  Returns the new state and the records logged by this call. -/
def signal_handler (g : GracefulShutdown) (signum : Nat) :
    GracefulShutdown × List LogEntry :=
  if g.shutdown_requested then (g, [])
  else ({ shutdown_requested := true },
        [{ level := LogLevel.info, tag := LogTag.shutdownSignal signum }])

/-- `GracefulShutdown.should_shutdown` (lines 34-37): read the flag. -/
def should_shutdown (g : GracefulShutdown) : Bool :=
  g.shutdown_requested

/-- Seconds in one calendar day. -/
def secondsPerDay : Nat := 86400

/-- The fixed poll interval of the loop: `time.sleep(30)` (line 92). -/
def pollInterval : Nat := 30

/-- Numeric value of a decimal digit character, none for a non-digit. -/
def digitVal (c : Char) : Option Nat :=
  if c.isDigit then some (c.toNat - 48) else none

/-- Modelled from the spec: the `schedule` library's validation of the
time-of-day string passed to `.at(...)` — "a time-of-day string matching
`HH:MM`, 24-hour"; malformed input raises at registration.  Returns the
second-of-day for a well-formed `HH:MM` string, none for malformed input. -/
def parseTime (t : String) : Option Nat :=
  match t.toList with
  | [h1, h2, c, m1, m2] =>
    if c = ':' then
      match digitVal h1, digitVal h2, digitVal m1, digitVal m2 with
      | some a, some b, some d, some e =>
        let hh := 10 * a + b
        let mm := 10 * d + e
        if hh < 24 ∧ mm < 60 then some (hh * 3600 + mm * 60) else none
      | _, _, _, _ => none
    else none
  | _ => none

/-- Outcome of one invocation of the registered callable: normal return or a
raised failure carrying a message. -/
inductive TaskResult
  | ok
  | failed (msg : String)
deriving DecidableEq, Repr

/-- The opaque zero-argument callable handed to `set_daily_task`: an identity
(so distinct registrations are distinguishable) and a behaviour giving the
outcome of each invocation, indexed by the global invocation count. -/
structure Task where
  id : Nat
  behavior : Nat → TaskResult

/-- One job of the `schedule` library's registry: its next absolute trigger
time and the configured second-of-day it was registered at. -/
structure Job where
  next_run : Nat
  at_sec : Nat
deriving DecidableEq, Repr

/-- Modelled from the spec: initial pending-job computation on registration —
"computed as today at time-of-day, or tomorrow if that has already passed". -/
def scheduleFirstRun (now at_sec : Nat) : Nat :=
  if now % secondsPerDay < at_sec then
    (now / secondsPerDay) * secondsPerDay + at_sec
  else
    (now / secondsPerDay + 1) * secondsPerDay + at_sec

/-- Modelled from the spec: trigger recomputation after a firing — "the job's
next trigger is advanced by exactly one day from the configured time-of-day
(not one day from now)": the day after the firing instant, at the configured
second-of-day. -/
def scheduleNextRunAfter (now at_sec : Nat) : Nat :=
  (now / secondsPerDay + 1) * secondsPerDay + at_sec

/-- Errors that construction or registration can raise:
`ImportError` when the `schedule` library is unavailable (lines 47-49), and
the `schedule` library's rejection of a malformed `.at(...)` string. -/
inductive SchedError
  | importError
  | scheduleValueError
deriving DecidableEq, Repr

/-- Full state of one `Scheduler` instance (lines 40-62) together with the
`schedule` library's job registry, the task-invocation history (ids of tasks
invoked, in order) and the accumulated log. -/
structure SchedulerState where
  schedule_time : String
  shutdown_handler : GracefulShutdown
  task_callback : Option Task
  jobs : List Job
  running : Bool
  invocations : List Nat
  log : List LogEntry

/-- Append one log record to the scheduler's log. -/
def appendLog (e : LogEntry) (s : SchedulerState) : SchedulerState :=
  { s with log := s.log ++ [e] }

/-- `Scheduler.__init__` (lines 43-62): raises `ImportError` when the
`schedule` library is unavailable; otherwise stores the time string unparsed,
creates the shutdown handler, leaves the callback unset and the running flag
false, and logs the timezone diagnostics.  Note that the time-of-day string
is NOT validated here. -/
def Scheduler.init (scheduleAvailable : Bool) (schedule_time : String) :
    Except SchedError SchedulerState :=
  if scheduleAvailable then
    Except.ok
      { schedule_time := schedule_time
        shutdown_handler := GracefulShutdown.init
        task_callback := none
        jobs := []
        running := false
        invocations := []
        log := [{ level := LogLevel.info, tag := LogTag.tzCheck }] }
  else
    Except.error SchedError.importError

/-- The three info records logged before the callback is invoked
(lines 77-79): banner, timestamped start line, banner. -/
def taskBanner (now : Nat) : List LogEntry :=
  [{ level := LogLevel.info, tag := LogTag.bannerLine },
   { level := LogLevel.info, tag := LogTag.taskStart now },
   { level := LogLevel.info, tag := LogTag.bannerLine }]

/-- `Scheduler._safe_run_task` (lines 73-83): return at once if no callback is
set; otherwise log the start banner, invoke the callback, record the
completion line on normal return or — `except Exception` — log the failure at
error severity and swallow it.  The total return type shows that no failure
escapes this wrapper. -/
def safe_run_task (now : Nat) (s : SchedulerState) : SchedulerState :=
  match s.task_callback with
  | none => s
  | some task =>
    match task.behavior s.invocations.length with
    | TaskResult.ok =>
      { s with invocations := s.invocations ++ [task.id],
               log := s.log ++ taskBanner now ++
                 [{ level := LogLevel.info, tag := LogTag.taskDone now }] }
    | TaskResult.failed msg =>
      { s with invocations := s.invocations ++ [task.id],
               log := s.log ++ taskBanner now ++
                 [{ level := LogLevel.error, tag := LogTag.taskFailed msg }] }

/-- `Scheduler.set_daily_task` (lines 64-71): store the callback, then call
`schedule.every().day.at(self.schedule_time).do(self._safe_run_task)` — which
raises on a malformed time string and otherwise APPENDS a new job to the
registry — log the confirmation, and, when `run_immediately`, log the notice
and invoke the safety wrapper synchronously. -/
def set_daily_task (now : Nat) (s : SchedulerState) (task : Task)
    (run_immediately : Bool) : Except SchedError SchedulerState :=
  match parseTime s.schedule_time with
  | none => Except.error SchedError.scheduleValueError
  | some at_sec =>
    let s1 : SchedulerState :=
      { s with task_callback := some task,
               jobs := s.jobs ++
                 [{ next_run := scheduleFirstRun now at_sec, at_sec := at_sec }],
               log := s.log ++ [{ level := LogLevel.info, tag := LogTag.taskSet }] }
    if run_immediately then
      Except.ok (safe_run_task now
        (appendLog { level := LogLevel.info, tag := LogTag.immediateRun } s1))
    else
      Except.ok s1

/-- Helper for `schedule.run_pending`: walk the job list; each job whose
trigger is due (`next_run ≤ now`) fires through the safety wrapper and has its
trigger recomputed.  Returns the updated registry and state. -/
def runJobs (now : Nat) : List Job → SchedulerState → List Job × SchedulerState
  | [], s => ([], s)
  | j :: rest, s =>
    if j.next_run ≤ now then
      let s1 := safe_run_task now s
      let p := runJobs now rest s1
      ({ j with next_run := scheduleNextRunAfter now j.at_sec } :: p.1, p.2)
    else
      let p := runJobs now rest s
      (j :: p.1, p.2)

/-- `schedule.run_pending()` as called on line 91: fire every due job of the
registry through `_safe_run_task` and advance its trigger. -/
def run_pending (now : Nat) (s : SchedulerState) : SchedulerState :=
  let p := runJobs now s.jobs s
  { p.2 with jobs := p.1 }

/-- `Scheduler._get_next_run_time` minimum: `min(job.next_run for job in jobs)`
over a nonempty registry (line 103). -/
def minNextRun (j : Job) : List Job → Nat
  | [] => j.next_run
  | k :: rest => Nat.min j.next_run (minNextRun k rest)

/-- `Scheduler._get_next_run_time` (lines 100-105): the earliest pending
trigger over the registry, or the sentinel (the string `"未设置"`, modelled as
`none`) when no job is registered.  Display formatting is abstracted away:
the model returns the timestamp itself. -/
def get_next_run_time (s : SchedulerState) : Option Nat :=
  match s.jobs with
  | [] => none
  | j :: rest => some (minNextRun j rest)

/-- `Scheduler.stop` (lines 107-108): clear the running flag. -/
def stop (s : SchedulerState) : SchedulerState :=
  { s with running := false }

/-- What the concurrent world does during one iteration's 30-second sleep:
whether some other context calls `stop()`, and an OS signal (if any) delivered
to `GracefulShutdown._signal_handler`. -/
structure RunEvent where
  stopCalled : Bool
  sigReceived : Option Nat
deriving DecidableEq, Repr

/-- Apply one iteration's external events to the state. -/
def applyEvent (e : RunEvent) (s : SchedulerState) : SchedulerState :=
  let s1 :=
    match e.sigReceived with
    | none => s
    | some n =>
      let p := signal_handler s.shutdown_handler n
      { s with shutdown_handler := p.1, log := s.log ++ p.2 }
  if e.stopCalled then stop s1 else s1

/-- One iteration of the `while` body of `Scheduler.run` (lines 91-96), for
iteration `i` polling at time `t0 + 30 * i`: `schedule.run_pending()`, then
`time.sleep(30)` — during which the events `env i` of concurrent contexts
act — then the hourly heartbeat, emitted when the wall clock's minute is 0
and its second is below 30 after the sleep. -/
def loopBody (env : Nat → RunEvent) (t0 i : Nat) (s : SchedulerState) :
    SchedulerState :=
  if (t0 + pollInterval * (i + 1)) / 60 % 60 = 0 ∧
      (t0 + pollInterval * (i + 1)) % 60 < pollInterval then
    appendLog { level := LogLevel.info,
                tag := LogTag.heartbeat (get_next_run_time
                  (applyEvent (env i) (run_pending (t0 + pollInterval * i) s))) }
      (applyEvent (env i) (run_pending (t0 + pollInterval * i) s))
  else
    applyEvent (env i) (run_pending (t0 + pollInterval * i) s)

/-- The `while` loop of `Scheduler.run` (lines 90-96), driven by `fuel`
remaining guard checks and the iteration counter `i`.  While the running
flag is set and no shutdown was requested, execute `loopBody`.  Returns the
final state and iteration counter, or `none` when the loop is still running
after `fuel` guard checks. -/
def runLoop (env : Nat → RunEvent) (t0 : Nat) :
    Nat → Nat → SchedulerState → Option (SchedulerState × Nat)
  | 0, _, _ => none
  | fuel + 1, i, s =>
    if s.running = true ∧ should_shutdown s.shutdown_handler = false then
      runLoop env t0 fuel (i + 1) (loopBody env t0 i s)
    else
      some (s, i)

/-- The prologue of `Scheduler.run` (lines 86-88): set the running flag,
log the loop start and the computed next run time. -/
def runPrologue (s : SchedulerState) : SchedulerState :=
  appendLog { level := LogLevel.info,
              tag := LogTag.nextRunInfo (get_next_run_time
                (appendLog { level := LogLevel.info, tag := LogTag.loopStart }
                  { s with running := true })) }
    (appendLog { level := LogLevel.info, tag := LogTag.loopStart }
      { s with running := true })

/-- `Scheduler.run` (lines 85-98): the prologue, then the poll loop, then the
stop log line when the loop exits.  Returns `none` when the loop outlives the
fuel. -/
def run (env : Nat → RunEvent) (t0 fuel : Nat) (s : SchedulerState) :
    Option (SchedulerState × Nat) :=
  match runLoop env t0 fuel 0 (runPrologue s) with
  | some (sf, n) =>
    some (appendLog { level := LogLevel.info, tag := LogTag.loopStop } sf, n)
  | none => none

/-- Deliver a sequence of OS signals to the handler, collecting the state and
every record logged along the way. -/
def applySignals : GracefulShutdown → List Nat → GracefulShutdown × List LogEntry
  | g, [] => (g, [])
  | g, n :: sigs =>
    let p := signal_handler g n
    let q := applySignals p.1 sigs
    (q.1, p.2 ++ q.2)

/-- An iteration's events force the loop to exit: some concurrent context
called `stop()` or a termination signal was delivered during the sleep. -/
def forcesExit (e : RunEvent) : Prop :=
  e.stopCalled = true ∨ e.sigReceived.isSome = true

/-- Whether construction returned a scheduler rather than raising. -/
def isOkB : Except SchedError SchedulerState → Bool
  | Except.ok _ => true
  | Except.error _ => false

/-- Fixture: a task that always returns normally. -/
def exTaskA : Task :=
  { id := 1, behavior := fun _ => TaskResult.ok }

/-- Fixture: a second, distinguishable task that always returns normally. -/
def exTaskB : Task :=
  { id := 2, behavior := fun _ => TaskResult.ok }

/-- Fixture: a task whose every invocation raises. -/
def exTaskFail : Task :=
  { id := 3, behavior := fun _ => TaskResult.failed "boom" }

/-- Fixture: the state `Scheduler("14:30")` constructs (time-of-day 52200 s =
14:30), before any registration. -/
def exState0 : SchedulerState :=
  { schedule_time := "14:30"
    shutdown_handler := { shutdown_requested := false }
    task_callback := none
    jobs := []
    running := false
    invocations := []
    log := [{ level := LogLevel.info, tag := LogTag.tzCheck }] }

/-- Fixture: a scheduler whose registered callback is the always-failing task. -/
def exStateFail : SchedulerState :=
  { exState0 with task_callback := some exTaskFail }

/-- Fixture: a scheduler constructed with the malformed time string `"99:99"`. -/
def exStateBad : SchedulerState :=
  { exState0 with schedule_time := "99:99" }

/-- Fixture: a scheduler on which a shutdown has already been requested. -/
def exStateShut : SchedulerState :=
  { exState0 with shutdown_handler := { shutdown_requested := true } }

/-- Fixture: a scheduler holding one job due at 14:30 of day 0, with the
always-succeeding task registered. -/
def exStateJob : SchedulerState :=
  { exState0 with task_callback := some exTaskA,
                  jobs := [{ next_run := 52200, at_sec := 52200 }] }

/-- Fixture: the state after registering `exTaskA` on a fresh scheduler at
time 0 without the immediate run. -/
def exAfterSet : SchedulerState :=
  match set_daily_task 0 exState0 exTaskA false with
  | Except.ok s => s
  | Except.error _ => exState0

/-- Environment in which a concurrent context calls `stop()` during every
iteration's sleep. -/
def envStop : Nat → RunEvent :=
  fun _ => { stopCalled := true, sigReceived := none }

/-- Environment in which a termination signal arrives during every
iteration's sleep and `stop()` is never called. -/
def envSig : Nat → RunEvent :=
  fun _ => { stopCalled := false, sigReceived := some 15 }

/-- Observation for C1: the size of the job registry after calling
`set_daily_task` twice on a fresh scheduler (`none` if either call raises). -/
def jobsAfterSecondSet : Option Nat :=
  match set_daily_task 0 exState0 exTaskA false with
  | Except.error _ => none
  | Except.ok s1 =>
    match set_daily_task 0 s1 exTaskB false with
    | Except.error _ => none
    | Except.ok s2 => some s2.jobs.length

/-- Observation for C5: the running flag after `run` returns on a scheduler
stopped by a termination signal alone (no `stop()` call). -/
def runningAfterShutdownExit : Option Bool :=
  (run envSig 0 3 exState0).map (fun p => p.1.running)

/-! ## Helper lemmas -/

theorem appendLog_running (e : LogEntry) (s : SchedulerState) :
    (appendLog e s).running = s.running := rfl

theorem appendLog_shutdown (e : LogEntry) (s : SchedulerState) :
    (appendLog e s).shutdown_handler = s.shutdown_handler := rfl

theorem appendLog_jobs (e : LogEntry) (s : SchedulerState) :
    (appendLog e s).jobs = s.jobs := rfl

theorem appendLog_invocations (e : LogEntry) (s : SchedulerState) :
    (appendLog e s).invocations = s.invocations := rfl

theorem appendLog_callback (e : LogEntry) (s : SchedulerState) :
    (appendLog e s).task_callback = s.task_callback := rfl

theorem safe_run_task_jobs (now : Nat) (s : SchedulerState) :
    (safe_run_task now s).jobs = s.jobs := by
  unfold safe_run_task
  split
  · rfl
  · split <;> rfl

theorem safe_run_task_running (now : Nat) (s : SchedulerState) :
    (safe_run_task now s).running = s.running := by
  unfold safe_run_task
  split
  · rfl
  · split <;> rfl

theorem safe_run_task_shutdown (now : Nat) (s : SchedulerState) :
    (safe_run_task now s).shutdown_handler = s.shutdown_handler := by
  unfold safe_run_task
  split
  · rfl
  · split <;> rfl

theorem safe_run_task_callback (now : Nat) (s : SchedulerState) :
    (safe_run_task now s).task_callback = s.task_callback := by
  unfold safe_run_task
  split
  · rfl
  · split <;> rfl

theorem safe_run_task_invocations (now : Nat) (s : SchedulerState) (t : Task)
    (h : s.task_callback = some t) :
    (safe_run_task now s).invocations = s.invocations ++ [t.id] := by
  rcases hb : t.behavior s.invocations.length with _ | msg <;>
    simp [safe_run_task, h, hb]

theorem signal_handler_requested (g : GracefulShutdown) (n : Nat) :
    (signal_handler g n).1.shutdown_requested = true := by
  unfold signal_handler
  split
  · next h => exact h
  · rfl

theorem applySignals_requested (sigs : List Nat) :
    applySignals { shutdown_requested := true } sigs =
      ({ shutdown_requested := true }, []) := by
  induction sigs with
  | nil => rfl
  | cons n sigs ih =>
    have h1 : signal_handler { shutdown_requested := true } n =
        ({ shutdown_requested := true }, []) := rfl
    simp only [applySignals, h1, ih]
    rfl

/-! ## C6 -/

/-- C6: shutdown requests are idempotent: for every handler state with no
request recorded and every nonempty sequence of delivered signals, exactly
one shutdown notice is logged in total (by the first delivery), the flag ends
up (and by monotonicity stays) requested so `should_shutdown` returns true,
and any further delivery is a strict no-op that changes nothing and logs
nothing. -/
theorem request_shutdown_idempotent (g : GracefulShutdown) (sigs : List Nat)
    (h : g.shutdown_requested = false) (hne : sigs ≠ []) :
    (applySignals g sigs).2.length = 1 ∧
    should_shutdown (applySignals g sigs).1 = true ∧
    ∀ n, signal_handler (applySignals g sigs).1 n = ((applySignals g sigs).1, []) := by
  cases sigs with
  | nil => exact absurd rfl hne
  | cons n sigs =>
    have hfirst : signal_handler g n =
        ({ shutdown_requested := true },
         [{ level := LogLevel.info, tag := LogTag.shutdownSignal n }]) := by
      unfold signal_handler
      rw [if_neg (by simp [h])]
    have hall : applySignals g (n :: sigs) =
        ({ shutdown_requested := true },
         [{ level := LogLevel.info, tag := LogTag.shutdownSignal n }]) := by
      simp only [applySignals, hfirst, applySignals_requested]
      rfl
    refine ⟨by rw [hall]; rfl, by rw [hall]; rfl, fun m => ?_⟩
    rw [hall]
    rfl

/-- C6 witness: delivering an interrupt then a terminate signal to a fresh
handler logs exactly one notice and leaves the flag requested. -/
theorem request_shutdown_idempotent_witness :
    GracefulShutdown.init.shutdown_requested = false ∧
    (applySignals GracefulShutdown.init [2, 15]).2.length = 1 ∧
    should_shutdown (applySignals GracefulShutdown.init [2, 15]).1 = true :=
  ⟨rfl, (request_shutdown_idempotent GracefulShutdown.init [2, 15] rfl (by simp)).1,
   (request_shutdown_idempotent GracefulShutdown.init [2, 15] rfl (by simp)).2.1⟩

/-! ## C2 -/

/-- C2: a failure raised by the registered task during a firing is contained
by `_safe_run_task`: the wrapper returns normally (its total type admits no
escaping failure), appends exactly the banner records plus one record at
error severity, records the invocation, and leaves the job registry and the
running flag untouched — so the loop continues and the next trigger stays
scheduled. -/
theorem task_failure_contained (now : Nat) (s : SchedulerState) (task : Task)
    (msg : String) (hcb : s.task_callback = some task)
    (hfail : task.behavior s.invocations.length = TaskResult.failed msg) :
    safe_run_task now s =
      { s with invocations := s.invocations ++ [task.id],
               log := s.log ++ taskBanner now ++
                 [{ level := LogLevel.error, tag := LogTag.taskFailed msg }] } ∧
    (safe_run_task now s).jobs = s.jobs ∧
    (safe_run_task now s).running = s.running := by
  have heq : safe_run_task now s =
      { s with invocations := s.invocations ++ [task.id],
               log := s.log ++ taskBanner now ++
                 [{ level := LogLevel.error, tag := LogTag.taskFailed msg }] } := by
    unfold safe_run_task
    rw [hcb]
    simp only [hfail]
  exact ⟨heq, by rw [heq], by rw [heq]⟩

/-- C2 witness: the always-failing registered task fires, the failure is
swallowed, and the registry and running flag are unchanged. -/
theorem task_failure_contained_witness :
    exStateFail.task_callback = some exTaskFail ∧
    exTaskFail.behavior exStateFail.invocations.length = TaskResult.failed "boom" ∧
    (safe_run_task 5 exStateFail).jobs = exStateFail.jobs ∧
    (safe_run_task 5 exStateFail).running = exStateFail.running :=
  ⟨rfl, rfl, (task_failure_contained 5 exStateFail exTaskFail "boom" rfl rfl).2.1,
   (task_failure_contained 5 exStateFail exTaskFail "boom" rfl rfl).2.2⟩

/-! ## C8 -/

/-- C8: with `run_immediately = true`, `set_daily_task` invokes the task
synchronously exactly once — through the same `_safe_run_task` wrapper as a
scheduled firing — during the call itself (hence before `run` is ever
called); with `run_immediately = false` the call records no invocation. -/
theorem run_immediately_invokes_exactly_once (now : Nat) (s : SchedulerState)
    (task : Task) (a : Nat) (hp : parseTime s.schedule_time = some a) :
    ∃ s1, set_daily_task now s task false = Except.ok s1 ∧
      s1.invocations = s.invocations ∧
      set_daily_task now s task true = Except.ok (safe_run_task now
        (appendLog { level := LogLevel.info, tag := LogTag.immediateRun } s1)) ∧
      (safe_run_task now
        (appendLog { level := LogLevel.info, tag := LogTag.immediateRun } s1)).invocations
        = s.invocations ++ [task.id] := by
  refine ⟨{ s with
            task_callback := some task
            jobs := s.jobs ++
              [{ next_run := scheduleFirstRun now a, at_sec := a }]
            log := s.log ++
              [{ level := LogLevel.info, tag := LogTag.taskSet }] },
    ?_, rfl, ?_, ?_⟩
  · unfold set_daily_task
    rw [hp]
    rfl
  · unfold set_daily_task
    rw [hp]
    rfl
  · rw [safe_run_task_invocations _ _ task rfl]
    rfl

/-- C8 witness: registering the always-succeeding task on a fresh scheduler
with the immediate run records exactly one invocation; without it, none. -/
theorem run_immediately_invokes_exactly_once_witness :
    parseTime exState0.schedule_time = some 52200 ∧
    ∃ s1, set_daily_task 0 exState0 exTaskA false = Except.ok s1 ∧
      s1.invocations = exState0.invocations ∧
      set_daily_task 0 exState0 exTaskA true = Except.ok (safe_run_task 0
        (appendLog { level := LogLevel.info, tag := LogTag.immediateRun } s1)) ∧
      (safe_run_task 0
        (appendLog { level := LogLevel.info, tag := LogTag.immediateRun } s1)).invocations
        = exState0.invocations ++ [exTaskA.id] :=
  ⟨by decide, run_immediately_invokes_exactly_once 0 exState0 exTaskA 52200 (by decide)⟩

/-! ## C4 -/

/-- C4 counterexample: with the scheduling primitive available and the
malformed time-of-day string `"99:99"`, construction nevertheless succeeds —
the claim that construction fails exactly when the primitive is unavailable
OR the string is malformed is false on the code, which never validates the
string in `__init__`. -/
theorem malformed_time_not_rejected_at_construction :
    isOkB (Scheduler.init true "99:99") = true ∧ parseTime "99:99" = none := by
  decide

/-- C4 amended: construction fails (with `ImportError`) precisely when the
scheduling primitive is unavailable, for every time string — well-formed or
not; a malformed time-of-day surfaces only later, when `set_daily_task`
passes it to the primitive's `.at(...)`, as a registration-time error. -/
theorem construction_fails_iff_primitive_unavailable (t : String) (now : Nat)
    (s : SchedulerState) (task : Task) (b : Bool) :
    Scheduler.init false t = Except.error SchedError.importError ∧
    isOkB (Scheduler.init true t) = true ∧
    (s.schedule_time = t → parseTime t = none →
      set_daily_task now s task b = Except.error SchedError.scheduleValueError) := by
  refine ⟨rfl, rfl, fun h1 h2 => ?_⟩
  unfold set_daily_task
  rw [h1, h2]

/-- C4 witness: a scheduler constructed with `"99:99"` exists, and its
registration call raises the value error. -/
theorem construction_fails_iff_primitive_unavailable_witness :
    exStateBad.schedule_time = "99:99" ∧ parseTime "99:99" = none ∧
    set_daily_task 0 exStateBad exTaskA false =
      Except.error SchedError.scheduleValueError :=
  ⟨rfl, by decide,
   (construction_fails_iff_primitive_unavailable "99:99" 0 exStateBad exTaskA
      false).2.2 rfl (by decide)⟩

/-! ## C1 -/

/-- Registration without the immediate run, in closed form: the callback is
replaced and one job is APPENDED to the registry. -/
theorem set_daily_task_ok (now : Nat) (s : SchedulerState) (task : Task)
    (a : Nat) (hp : parseTime s.schedule_time = some a) :
    set_daily_task now s task false = Except.ok
      { s with
        task_callback := some task
        jobs := s.jobs ++ [{ next_run := scheduleFirstRun now a, at_sec := a }]
        log := s.log ++ [{ level := LogLevel.info, tag := LogTag.taskSet }] } := by
  unfold set_daily_task
  rw [hp]
  rfl

/-- Registration with the immediate run, in closed form: same as without,
followed by the immediate-run notice and one pass through the wrapper. -/
theorem set_daily_task_ok_true (now : Nat) (s : SchedulerState) (task : Task)
    (a : Nat) (hp : parseTime s.schedule_time = some a) :
    set_daily_task now s task true = Except.ok (safe_run_task now
      (appendLog { level := LogLevel.info, tag := LogTag.immediateRun }
        { s with
          task_callback := some task
          jobs := s.jobs ++ [{ next_run := scheduleFirstRun now a, at_sec := a }]
          log := s.log ++ [{ level := LogLevel.info, tag := LogTag.taskSet }] })) := by
  unfold set_daily_task
  rw [hp]
  rfl

/-- C1 counterexample: on a fresh scheduler, registering a task and then
registering a second task leaves TWO pending daily jobs in the registry, not
the exactly one the claim asserts. -/
theorem second_set_daily_task_leaves_two_jobs :
    jobsAfterSecondSet = some 2 ∧ jobsAfterSecondSet ≠ some 1 := by
  decide

/-- C1 amended: calling `set_daily_task` a second time replaces the previous
callback (last write wins, no error is raised) but does NOT remove the
previous registration from the job registry: afterwards two daily jobs are
pending, and when the configured time-of-day arrives each of them fires the
safety wrapper, so the new task is invoked once per pending job — twice per
day — and the old task not at all. -/
theorem set_daily_task_again_appends_job (now : Nat) (s : SchedulerState)
    (tA tB : Task) (a : Nat) (hp : parseTime s.schedule_time = some a)
    (hjobs : s.jobs = []) :
    ∃ s1 s2, set_daily_task now s tA false = Except.ok s1 ∧
      set_daily_task now s1 tB false = Except.ok s2 ∧
      s2.task_callback = some tB ∧
      s2.jobs = [{ next_run := scheduleFirstRun now a, at_sec := a },
                 { next_run := scheduleFirstRun now a, at_sec := a }] ∧
      (run_pending (scheduleFirstRun now a) s2).invocations
        = s2.invocations ++ [tB.id, tB.id] := by
  refine ⟨_, _, set_daily_task_ok now s tA a hp,
    set_daily_task_ok now _ tB a hp, rfl, ?_, ?_⟩
  · simp [hjobs]
  · simp only [run_pending, runJobs, hjobs, List.nil_append, le_refl, if_true]
    rw [safe_run_task_invocations _ _ tB
          ((safe_run_task_callback _ _).trans rfl),
        safe_run_task_invocations _ _ tB rfl]
    simp

/-- C1 amended witness: on the fresh 14:30 scheduler, the second registration
succeeds, leaves two 14:30 jobs, and a poll at 14:30 invokes the second task
twice. -/
theorem set_daily_task_again_appends_job_witness :
    parseTime exState0.schedule_time = some 52200 ∧ exState0.jobs = [] ∧
    ∃ s1 s2, set_daily_task 0 exState0 exTaskA false = Except.ok s1 ∧
      set_daily_task 0 s1 exTaskB false = Except.ok s2 ∧
      s2.task_callback = some exTaskB ∧
      s2.jobs = [{ next_run := scheduleFirstRun 0 52200, at_sec := 52200 },
                 { next_run := scheduleFirstRun 0 52200, at_sec := 52200 }] ∧
      (run_pending (scheduleFirstRun 0 52200) s2).invocations
        = s2.invocations ++ [exTaskB.id, exTaskB.id] :=
  ⟨by decide, rfl,
   set_daily_task_again_appends_job 0 exState0 exTaskA exTaskB 52200 (by decide) rfl⟩

/-! ## C7 -/

/-- C7: when the registry's single job fires at an instant `now` on the same
calendar day as its trigger (the trigger invariantly sits at the configured
second-of-day), the recomputed pending trigger is exactly one day after the
old trigger — the configured time-of-day one day later — and, whenever the
firing was delayed past the trigger (e.g. by poll granularity), that value
differs from 24 hours after the actual firing instant. -/
theorem next_trigger_advances_one_day (s : SchedulerState) (j : Job)
    (now : Nat) (hjobs : s.jobs = [j])
    (hinv : j.next_run % secondsPerDay = j.at_sec)
    (hdue : j.next_run ≤ now)
    (hsame : now / secondsPerDay = j.next_run / secondsPerDay) :
    (run_pending now s).jobs =
      [{ j with next_run := j.next_run + secondsPerDay }] ∧
    (j.next_run < now → j.next_run + secondsPerDay ≠ now + secondsPerDay) := by
  have harith : scheduleNextRunAfter now j.at_sec = j.next_run + secondsPerDay := by
    simp only [scheduleNextRunAfter, secondsPerDay] at hinv hsame ⊢
    omega
  constructor
  · simp only [run_pending, runJobs, hjobs, hdue, if_true, harith]
  · intro h
    omega

/-- C7 witness: the 14:30 job of day 0 fires 30 seconds late, at 14:30:30;
the next trigger is 14:30 of day 1 (52200 + 86400), not 14:30:30 plus a
day. -/
theorem next_trigger_advances_one_day_witness :
    exStateJob.jobs = [{ next_run := 52200, at_sec := 52200 }] ∧
    (52200 : Nat) % secondsPerDay = 52200 ∧ (52200 : Nat) ≤ 52230 ∧
    (52230 : Nat) / secondsPerDay = 52200 / secondsPerDay ∧
    (run_pending 52230 exStateJob).jobs =
      [{ next_run := 52200 + secondsPerDay, at_sec := 52200 }] ∧
    ((52200 : Nat) < 52230 →
      52200 + secondsPerDay ≠ 52230 + secondsPerDay) :=
  ⟨rfl, by decide, by decide, by decide,
   (next_trigger_advances_one_day exStateJob { next_run := 52200, at_sec := 52200 }
      52230 rfl (by decide) (by decide) (by decide)).1,
   (next_trigger_advances_one_day exStateJob { next_run := 52200, at_sec := 52200 }
      52230 rfl (by decide) (by decide) (by decide)).2⟩

/-! ## C9 -/

theorem minNextRun_le (j : Job) (l : List Job) :
    ∀ k ∈ j :: l, minNextRun j l ≤ k.next_run := by
  induction l generalizing j with
  | nil =>
    intro k hk
    rw [List.mem_singleton] at hk
    subst hk
    exact Nat.le_refl _
  | cons m rest ih =>
    intro k hk
    rcases List.mem_cons.mp hk with h | h
    · subst h
      exact Nat.min_le_left _ _
    · exact Nat.le_trans (Nat.min_le_right _ _) (ih m k h)

theorem minNextRun_mem (j : Job) (l : List Job) :
    ∃ k ∈ j :: l, minNextRun j l = k.next_run := by
  induction l generalizing j with
  | nil => exact ⟨j, List.mem_singleton_self _, rfl⟩
  | cons m rest ih =>
    rcases ih m with ⟨k, hk, he⟩
    rcases Nat.le_total j.next_run (minNextRun m rest) with h | h
    · refine ⟨j, List.mem_cons_self _ _, ?_⟩
      show Nat.min j.next_run (minNextRun m rest) = j.next_run
      simp only [Nat.min_def]
      split <;> omega
    · refine ⟨k, List.mem_cons_of_mem _ hk, ?_⟩
      show Nat.min j.next_run (minNextRun m rest) = k.next_run
      simp only [Nat.min_def]
      split <;> omega

/-- C9: `_get_next_run_time` returns the sentinel exactly when no job is
registered; on a nonempty registry it returns the earliest pending trigger
(lower bound of, and attained by, some job); and after registering any task
with a valid `HH:MM` time on a fresh scheduler, the returned trigger is at or
after the current time. -/
theorem next_run_time_sentinel_and_earliest (now a : Nat)
    (s s2 : SchedulerState) (task : Task) (b : Bool)
    (hp : parseTime s.schedule_time = some a) (hjobs : s.jobs = [])
    (hset : set_daily_task now s task b = Except.ok s2) :
    (∀ st : SchedulerState, (get_next_run_time st = none ↔ st.jobs = [])) ∧
    (∀ (st : SchedulerState) (v : Nat), get_next_run_time st = some v →
      (∀ j ∈ st.jobs, v ≤ j.next_run) ∧ ∃ j ∈ st.jobs, v = j.next_run) ∧
    get_next_run_time s2 = some (scheduleFirstRun now a) ∧
    now ≤ scheduleFirstRun now a := by
  refine ⟨?_, ?_, ?_, ?_⟩
  · intro st
    cases h : st.jobs with
    | nil => simp [get_next_run_time, h]
    | cons j rest => simp [get_next_run_time, h]
  · intro st v hv
    cases h : st.jobs with
    | nil => simp [get_next_run_time, h] at hv
    | cons j rest =>
      unfold get_next_run_time at hv
      rw [h] at hv
      have hv2 : v = minNextRun j rest := by
        injection hv with hv
        exact hv.symm
      subst hv2
      exact ⟨minNextRun_le j rest, minNextRun_mem j rest⟩
  · have hjobs2 : s2.jobs =
        [{ next_run := scheduleFirstRun now a, at_sec := a }] := by
      cases b with
      | false =>
        rw [set_daily_task_ok now s task a hp] at hset
        injection hset with hset
        rw [← hset]
        simp [hjobs]
      | true =>
        rw [set_daily_task_ok_true now s task a hp] at hset
        injection hset with hset
        rw [← hset, safe_run_task_jobs, appendLog_jobs]
        simp [hjobs]
    rw [get_next_run_time, hjobs2]
    rfl
  · unfold scheduleFirstRun secondsPerDay
    split <;> omega

/-- C9 witness: registering the task at time 0 on the fresh 14:30 scheduler
yields next trigger 52200 (14:30 of day 0), which is at or after 0. -/
theorem next_run_time_sentinel_and_earliest_witness :
    parseTime exState0.schedule_time = some 52200 ∧ exState0.jobs = [] ∧
    set_daily_task 0 exState0 exTaskA false = Except.ok exAfterSet ∧
    get_next_run_time exAfterSet = some (scheduleFirstRun 0 52200) ∧
    0 ≤ scheduleFirstRun 0 52200 :=
  ⟨by decide, rfl, rfl,
   (next_run_time_sentinel_and_earliest 0 52200 exState0 exAfterSet exTaskA
      false (by decide) rfl rfl).2.2.1,
   (next_run_time_sentinel_and_earliest 0 52200 exState0 exAfterSet exTaskA
      false (by decide) rfl rfl).2.2.2⟩

/-! ## Loop lemmas -/

theorem get_next_run_time_jobs_eq (s1 s2 : SchedulerState)
    (h : s1.jobs = s2.jobs) : get_next_run_time s1 = get_next_run_time s2 := by
  unfold get_next_run_time
  rw [h]

theorem runLoop_guard_true (env : Nat → RunEvent) (t0 fuel i : Nat)
    (s : SchedulerState)
    (hc : s.running = true ∧ should_shutdown s.shutdown_handler = false) :
    runLoop env t0 (fuel + 1) i s =
      runLoop env t0 fuel (i + 1) (loopBody env t0 i s) := by
  unfold runLoop
  rw [if_pos hc]
  cases fuel <;> rfl

theorem runLoop_guard_false (env : Nat → RunEvent) (t0 fuel i : Nat)
    (s : SchedulerState)
    (hc : ¬(s.running = true ∧ should_shutdown s.shutdown_handler = false)) :
    runLoop env t0 (fuel + 1) i s = some (s, i) := by
  unfold runLoop
  rw [if_neg hc]

theorem applyEvent_forces (e : RunEvent) (s : SchedulerState)
    (h : forcesExit e) :
    (applyEvent e s).running = false ∨
      should_shutdown (applyEvent e s).shutdown_handler = true := by
  rcases h with hstop | hsig
  · left
    unfold applyEvent
    rw [hstop]
    rfl
  · right
    obtain ⟨n, hn⟩ := Option.isSome_iff_exists.mp hsig
    unfold applyEvent
    rw [hn]
    cases hst : e.stopCalled
    · simp only [Bool.false_eq_true, if_false]
      exact signal_handler_requested _ _
    · simp only [if_true]
      exact signal_handler_requested _ _

theorem loopBody_forces (env : Nat → RunEvent) (t0 i : Nat)
    (s : SchedulerState) (h : forcesExit (env i)) :
    (loopBody env t0 i s).running = false ∨
      should_shutdown (loopBody env t0 i s).shutdown_handler = true := by
  unfold loopBody
  split
  · rcases applyEvent_forces (env i) (run_pending (t0 + pollInterval * i) s) h with
      h1 | h1
    · left
      rw [appendLog_running]
      exact h1
    · right
      rw [appendLog_shutdown]
      exact h1
  · exact applyEvent_forces (env i) _ h

theorem not_guard_of_forced (st : SchedulerState)
    (h : st.running = false ∨ should_shutdown st.shutdown_handler = true) :
    ¬(st.running = true ∧ should_shutdown st.shutdown_handler = false) := by
  rcases h with h | h <;> simp [h]

theorem runLoop_stops (env : Nat → RunEvent) (t0 : Nat) :
    ∀ (k i : Nat) (s : SchedulerState) (fuel : Nat), k + 2 ≤ fuel →
      forcesExit (env (i + k)) →
      ∃ p, runLoop env t0 fuel i s = some p ∧ p.2 ≤ i + k + 1 := by
  intro k
  induction k with
  | zero =>
    intro i s fuel hf h
    rw [Nat.add_zero] at h
    cases fuel with
    | zero => omega
    | succ f =>
      by_cases hc : s.running = true ∧ should_shutdown s.shutdown_handler = false
      · cases f with
        | zero => omega
        | succ g =>
          refine ⟨(loopBody env t0 i s, i + 1), ?_, by omega⟩
          rw [runLoop_guard_true env t0 (g + 1) i s hc]
          exact runLoop_guard_false env t0 g (i + 1) _
            (not_guard_of_forced _ (loopBody_forces env t0 i s h))
      · exact ⟨(s, i), runLoop_guard_false env t0 f i s hc, by omega⟩
  | succ k ih =>
    intro i s fuel hf h
    cases fuel with
    | zero => omega
    | succ f =>
      by_cases hc : s.running = true ∧ should_shutdown s.shutdown_handler = false
      · have h2 : forcesExit (env (i + 1 + k)) := by
          have he : i + 1 + k = i + (k + 1) := by omega
          rw [he]
          exact h
        obtain ⟨p, hp, hb⟩ := ih (i + 1) (loopBody env t0 i s) f (by omega) h2
        refine ⟨p, ?_, by omega⟩
        rw [runLoop_guard_true env t0 f i s hc]
        exact hp
      · exact ⟨(s, i), runLoop_guard_false env t0 f i s hc, by omega⟩

theorem run_eq_of_runLoop (env : Nat → RunEvent) (t0 fuel : Nat)
    (s sf : SchedulerState) (n : Nat)
    (hp : runLoop env t0 fuel 0 (runPrologue s) = some (sf, n)) :
    run env t0 fuel s =
      some (appendLog { level := LogLevel.info, tag := LogTag.loopStop } sf, n) := by
  unfold run
  rw [hp]

theorem runLoop_result_guard (env : Nat → RunEvent) (t0 : Nat) :
    ∀ (fuel i : Nat) (s sf : SchedulerState) (n : Nat),
      runLoop env t0 fuel i s = some (sf, n) →
      sf.running = false ∨ should_shutdown sf.shutdown_handler = true := by
  intro fuel
  induction fuel with
  | zero =>
    intro i s sf n h
    exact absurd h (by unfold runLoop; exact fun hh => Option.noConfusion hh)
  | succ f ih =>
    intro i s sf n h
    by_cases hc : s.running = true ∧ should_shutdown s.shutdown_handler = false
    · rw [runLoop_guard_true env t0 f i s hc] at h
      exact ih _ _ _ _ h
    · rw [runLoop_guard_false env t0 f i s hc] at h
      injection h with h2
      have hs : s = sf := congrArg Prod.fst h2
      subst hs
      cases hrun : s.running with
      | false => exact Or.inl rfl
      | true =>
        cases hsd : should_shutdown s.shutdown_handler with
        | false => exact absurd ⟨hrun, hsd⟩ hc
        | true => exact Or.inr rfl

/-! ## C3 -/

/-- C3: the loop body repeats only while the running flag is true and no
shutdown was requested — a state failing that guard exits at once with no
further body execution — and once `stop()` is called or a shutdown is
requested during iteration `k`'s sleep, `run` returns at the very next guard
check (`k + 2` checks suffice) having executed at most `k + 1` loop bodies:
no pending-job poll, and hence no task invocation, ever happens after the
exit, and the invocation history of the returned state is final. -/
theorem run_exits_after_stop_or_shutdown_request (env : Nat → RunEvent)
    (t0 k : Nat) (s : SchedulerState) (h : forcesExit (env k)) :
    (∃ p, run env t0 (k + 2) s = some p ∧ p.2 ≤ k + 1) ∧
    ∀ (f i : Nat) (st : SchedulerState),
      ¬(st.running = true ∧ should_shutdown st.shutdown_handler = false) →
      runLoop env t0 (f + 1) i st = some (st, i) := by
  constructor
  · have h0 : forcesExit (env (0 + k)) := by
      rw [Nat.zero_add]
      exact h
    obtain ⟨⟨sf, n⟩, hp, hb⟩ :=
      runLoop_stops env t0 k 0 (runPrologue s) (k + 2) (Nat.le_refl _) h0
    refine ⟨_, run_eq_of_runLoop env t0 (k + 2) s sf n hp, ?_⟩
    omega
  · intro f i st hc
    exact runLoop_guard_false env t0 f i st hc

/-- C3 witness: with `stop()` called during the first sleep, `run` on the
fresh scheduler returns within two guard checks after at most one body. -/
theorem run_exits_after_stop_or_shutdown_request_witness :
    forcesExit (envStop 0) ∧
    ∃ p, run envStop 0 (0 + 2) exState0 = some p ∧ p.2 ≤ 0 + 1 :=
  ⟨Or.inl rfl,
   (run_exits_after_stop_or_shutdown_request envStop 0 0 exState0 (Or.inl rfl)).1⟩

/-! ## C5 -/

/-- C5 counterexample: `run` on a fresh scheduler whose loop is ended by a
termination signal alone (no `stop()` call) returns with the running flag
still true — the claim that the flag is false after every return of `run`
is false on the code, whose loop exit does not clear the flag. -/
theorem running_flag_true_after_shutdown_exit :
    runningAfterShutdownExit = some true ∧ runningAfterShutdownExit ≠ some false := by
  decide

/-- C5 amended: `run` sets the running flag at entry and `stop()` is exactly
what clears it: whenever `run` returns, the final state has the running flag
false or the shutdown flag set — exit via `stop()` leaves it false, but exit
via a shutdown request alone leaves it true, because the loop exit itself
never clears the flag. -/
theorem run_exit_flag_status (env : Nat → RunEvent) (t0 fuel : Nat)
    (s : SchedulerState) :
    ((run env t0 fuel s).all fun p =>
      !p.1.running || should_shutdown p.1.shutdown_handler) = true ∧
    ∀ st : SchedulerState, (stop st).running = false := by
  refine ⟨?_, fun st => rfl⟩
  cases hr : run env t0 fuel s with
  | none => rfl
  | some p =>
    unfold run at hr
    cases hl : runLoop env t0 fuel 0 (runPrologue s) with
    | none =>
      rw [hl] at hr
      exact absurd hr (fun hh => Option.noConfusion hh)
    | some q =>
      obtain ⟨sf, n⟩ := q
      rw [hl] at hr
      injection hr with hr
      have hg := runLoop_result_guard env t0 fuel 0 (runPrologue s) sf n hl
      rcases hg with hg | hg
      · have h2 : (appendLog { level := LogLevel.info, tag := LogTag.loopStop }
            sf).running = false := by
          rw [appendLog_running]
          exact hg
        simp [Option.all, ← hr, h2]
      · have h2 : should_shutdown
            (appendLog { level := LogLevel.info, tag := LogTag.loopStop }
              sf).shutdown_handler = true := by
          rw [appendLog_shutdown]
          exact hg
        simp [Option.all, ← hr, h2]

/-! ## C10 -/

/-- C10: if a shutdown was already requested before `run` is called, the loop
body never executes: no pending job is polled or fired and the invocation
history is unchanged (the task is never invoked), while `run` still returns
normally after iteration counter 0, having logged exactly the loop-start
line, the next-run line and the loop-stop line. -/
theorem run_with_shutdown_requested_skips_body (env : Nat → RunEvent)
    (t0 fuel : Nat) (s : SchedulerState)
    (h : should_shutdown s.shutdown_handler = true) (hf : 1 ≤ fuel) :
    run env t0 fuel s = some
      ({ s with
         running := true
         log := s.log ++
           [{ level := LogLevel.info, tag := LogTag.loopStart },
            { level := LogLevel.info,
              tag := LogTag.nextRunInfo (get_next_run_time s) },
            { level := LogLevel.info, tag := LogTag.loopStop }] }, 0) := by
  cases fuel with
  | zero => omega
  | succ f =>
    have hguard : ¬((runPrologue s).running = true ∧
        should_shutdown (runPrologue s).shutdown_handler = false) := by
      intro hc
      have h2 : should_shutdown s.shutdown_handler = false := hc.2
      rw [h] at h2
      exact Bool.noConfusion h2
    rw [run_eq_of_runLoop env t0 (f + 1) s (runPrologue s) 0
      (runLoop_guard_false env t0 f 0 (runPrologue s) hguard)]
    unfold runPrologue appendLog
    simp [List.append_assoc]
    exact get_next_run_time_jobs_eq _ _ rfl

/-- C10 witness: on the fresh scheduler with the shutdown flag already set,
`run` with a single guard check returns at counter 0 with only the three
loop log lines added. -/
theorem run_with_shutdown_requested_skips_body_witness :
    should_shutdown exStateShut.shutdown_handler = true ∧ (1 : Nat) ≤ 1 ∧
    run envStop 0 1 exStateShut = some
      ({ exStateShut with
         running := true
         log := exStateShut.log ++
           [{ level := LogLevel.info, tag := LogTag.loopStart },
            { level := LogLevel.info,
              tag := LogTag.nextRunInfo (get_next_run_time exStateShut) },
            { level := LogLevel.info, tag := LogTag.loopStop }] }, 0) :=
  ⟨rfl, Nat.le_refl 1,
   run_with_shutdown_requested_skips_body envStop 0 1 exStateShut rfl (Nat.le_refl 1)⟩

end DailySched
